import Mathlib

/-!
Verification of the crowd-sensor-cloud-web dashboard client
(`src/app/app.component.ts`).  The component's logic is embedded shallowly:

* the device registry merge filter of `ngOnInit` (lines 96-108),
* the 5-minute cache-busting token (lines 75-76 and 291-292),
* the query parameters of the `/device` and `/air` requests,
* the chart-load callback and the step-back button of `onShowChart`,
* the sensor-data fan-out / group-by pipeline of `onLoadSensorData`,
* the `switchMap` request pipeline over the bounding-box stream.

Device timestamps and sensor values are modelled as integers (the code only
compares and adds them); wall-clock times from `Date.getTime()` are
nonnegative epoch milliseconds, modelled as `Nat`, on which `/` is exactly
JavaScript's `Math.floor` of the division.
-/

namespace CrowdSensor

/-- Device record (interface `Device`, src lines 14-24).  `marker` and
`chart` hold ids of the attached Leaflet marker / Highcharts chart;
`basetime`/`endtime` is the chart paging window.  All four are absent
(`none`) on a record freshly decoded from the `/device` response. -/
structure Device where
  device : String
  lat : Int
  long : Int
  timestamp : Int
  marker : Option Nat := none
  chart : Option Nat := none
  basetime : Option Int := none
  endtime : Option Int := none
deriving DecidableEq, Repr

/-- One step of the registry merge filter (src lines 96-108) for a single
device identifier.  `stored` is the current registry entry for the incoming
record's identifier.  Returns the new entry, the filter verdict (`true`
means the record passes on to `onAddMarker`, i.e. is re-rendered), and the
ids of the markers removed (`this.devices[item.device].marker.remove()`). -/
def mergeFilter (stored : Option Device) (item : Device) :
    Option Device × Bool × List Nat :=
  match stored with
  | none => (some item, true, [])
  | some d =>
    if item.timestamp > d.timestamp then
      (some item, true, d.marker.toList)
    else
      (some d, false, [])

/-- Folding the merge filter over an arrival sequence for one identifier,
starting from an empty registry entry; the result is the final entry. -/
def runMerge (items : List Device) : Option Device :=
  items.foldl (fun s i => (mergeFilter s i).1) none

/-- Specification-side: `d` carries the maximum timestamp of `items`. -/
def isMaxIn (items : List Device) (d : Device) : Bool :=
  decide (∀ x ∈ items, x.timestamp ≤ d.timestamp)

/-- Specification-side definition, following the spec's words: the
earliest-arriving record among those with the maximum timestamp, i.e. the
first list element whose timestamp is greater than or equal to every
element's timestamp. -/
def firstWithMaxTs (items : List Device) : Option Device :=
  items.find? (isMaxIn items)

/-- Cache-busting token (src lines 75-76 and 291-292):
`Math.floor(now / (5 * 60 * 1000)) * 5 * 60 * 1000`. -/
def cacheToken (now : Nat) : Nat :=
  now / (5 * 60 * 1000) * (5 * 60 * 1000)

/-- Query parameters of the `/device` request (src lines 70-77).  The
bounding-box corners are serialized coordinate strings. -/
def deviceParams (ne sw : String) (now : Nat) : List (String × String) :=
  [("ne", ne), ("sw", sw), ("t", toString (cacheToken now))]

/-- Query parameters of the `/air` request (src lines 284-296).  The `end`
parameter is added only when `target.endtime` is set; JavaScript's
`if (target.endtime)` also drops a zero value (falsy). -/
def airParams (device : String) (basetime : Int) (endtime : Option Int)
    (now : Nat) : List (String × String) :=
  let base := [("device", device), ("start", toString basetime),
    ("count", "500"), ("t", toString (cacheToken now))]
  match endtime with
  | some e => if e ≠ 0 then base ++ [("end", toString e)] else base
  | none => base

/-- Step-back button handler (src lines 271-276): first
`device.endtime = device.basetime`, then
`device.basetime = device.basetime - 3 * 60 * 60 * 1000`.  Input is the
current base time; output is the new `(basetime, endtime)` pair. -/
def stepBack (basetime : Int) : Int × Option Int :=
  (basetime - 3 * 60 * 60 * 1000, some basetime)

/-- Repeated activations of the step-back button on a `(basetime, endtime)`
window. -/
def stepBackIter : Nat → Int × Option Int → Int × Option Int
  | 0, w => w
  | n + 1, w => stepBackIter n (stepBack w.1)

/-- Base time set by the chart `load` event (src line 154):
`Math.floor((now - 150 * 60 * 1000) / (60 * 60 * 1000)) * 60 * 60 * 1000`. -/
def initBasetime (now : Nat) : Int :=
  ((now - 150 * 60 * 1000) / (60 * 60 * 1000) * (60 * 60 * 1000) : Nat)

/-- The `/air` query issued by the chart `load` event (src lines 152-157):
`basetime` is set as above, `endtime` is set to `undefined`, and
`onLoadSensorData` is called. -/
def chartLoadParams (device : String) (now : Nat) : List (String × String) :=
  airParams device (initBasetime now) none now

/-- Sensor reading decoded from the `/air` response (src lines 303-308). -/
structure SensorReading where
  timestamp : Int
  temperature : Int
  humidity : Int
  pm10 : Int
  pm25 : Int
deriving DecidableEq, Repr

/-- One `{key, value, time}` tuple of the fan-out (src lines 304-309). -/
structure MetricTuple where
  key : Nat
  value : Int
  time : Int
deriving DecidableEq, Repr

/-- Fan-out of one reading into four tuples (src lines 304-309); the plotted
time is `item.timestamp + 9 * 60 * 60 * 1000`. -/
def fanOut (item : SensorReading) : List MetricTuple :=
  [⟨0, item.temperature, item.timestamp + 9 * 60 * 60 * 1000⟩,
   ⟨1, item.humidity, item.timestamp + 9 * 60 * 60 * 1000⟩,
   ⟨2, item.pm10, item.timestamp + 9 * 60 * 60 * 1000⟩,
   ⟨3, item.pm25, item.timestamp + 9 * 60 * 60 * 1000⟩]

/-- Data handed to `chart.series[k].setData` (src lines 303-315): readings
are flattened through the fan-out, grouped by `key` (rxjs `groupBy`
partitions preserving source order), mapped to `[time, value]` and collected
with `toArray`. -/
def seriesData (results : List SensorReading) (k : Nat) : List (Int × Int) :=
  ((results.flatMap fanOut).filter (fun t => t.key == k)).map
    (fun t => (t.time, t.value))

/-- Specification-side: the value a reading supplies to series `k`
(0 = temperature, 1 = humidity, 2 = PM10, 3 = PM2.5). -/
def metricValue (k : Nat) (r : SensorReading) : Int :=
  match k with
  | 0 => r.temperature
  | 1 => r.humidity
  | 2 => r.pm10
  | _ => r.pm25

/-- Per-device chart state.  `chart` holds the id of the chart currently
assigned to `device.chart`; `created` counts the Highcharts instances
created so far for this device; `nextId` is the next fresh id. -/
structure ChartPanel where
  chart : Option Nat := none
  created : Nat := 0
  nextId : Nat := 0
deriving DecidableEq, Repr

/-- The `popupopen` handler (src lines 138-141) calls `onShowChart`, whose
first statement (src line 145) unconditionally creates a fresh Highcharts
instance and assigns it:
`event.target.chart = Highcharts.chart(container, ...)`. -/
def onShowChart (p : ChartPanel) : ChartPanel :=
  { chart := some p.nextId, created := p.created + 1, nextId := p.nextId + 1 }

/-- `n` successive popup opens of the same device's marker. -/
def openPopups : Nat → ChartPanel → ChartPanel
  | 0, p => p
  | n + 1, p => onShowChart (openPopups n p)

/-- Body of a `/device` response as JavaScript sees it: any of the three
fields may be absent (`undefined`). -/
structure DeviceResponse where
  status : Option String := none
  results : Option (List Device) := none
  error : Option String := none

/-- Outcome of the `/device` HTTP call: a success body, an
`HttpErrorResponse` carrying the body attached to the error (`err.error`),
or a non-HTTP failure. -/
inductive FetchOutcome where
  | success (resp : DeviceResponse)
  | httpError (errBody : DeviceResponse)
  | otherError

/-- The `catchError` handler (src lines 84-92): an `HttpErrorResponse` is
replaced by its `err.error` body; any other failure is replaced by
`{status: 'error', error: '에러'}`. -/
def afterCatchError : FetchOutcome → DeviceResponse
  | .success r => r
  | .httpError b => b
  | .otherError => { status := some "error", error := some "에러" }

/-- Devices emitted by the device-list pipeline for one fetch outcome
(src lines 94-95): `filter(resp => resp.status !== 'error')` drops the
response (no devices emitted, `.ok []`); otherwise `flatMap(resp =>
resp.results)` emits the results, and raises — erroring the stream,
`.error ()` — when the body has no `results` field. -/
def deviceListOutput (o : FetchOutcome) : Except Unit (List Device) :=
  let resp := afterCatchError o
  if resp.status = some "error" then Except.ok []
  else
    match resp.results with
    | some rs => Except.ok rs
    | none => Except.error ()

/-- Registry update for one incoming record: the merge filter applied at the
record's identifier (the JavaScript object `this.devices` keyed by
`item.device`). -/
def registryInsert (reg : String → Option Device) (item : Device) :
    String → Option Device :=
  fun k => if k = item.device then (mergeFilter (reg item.device) item).1
    else reg k

/-- Registry update for all records of one response, in order. -/
def applyDevices (reg : String → Option Device) (devs : List Device) :
    String → Option Device :=
  devs.foldl registryInsert reg

/-- Event of the device-list request pipeline: a new bounding-box emission
(src lines 68-77, after the `filter`/`map` stages), or the arrival of the
response of request number `g` carrying the decoded device records. -/
inductive NetEvent where
  | emitBounds
  | respond (g : Nat) (devs : List Device)

/-- State of the `switchMap` pipeline: `gen` numbers the bounding-box
emissions, i.e. the currently subscribed inner request; `reg` is the device
registry. -/
structure NetState where
  gen : Nat
  reg : String → Option Device

/-- The `switchMap` request pipeline (src lines 68-110): each bounding-box
emission subscribes a new inner request and unsubscribes — cancels — the
previous one, so a response is delivered to the downstream registry merge
only when its request is still the currently subscribed one. -/
def netStep (st : NetState) : NetEvent → NetState
  | .emitBounds => { st with gen := st.gen + 1 }
  | .respond g devs =>
    if g = st.gen then { st with reg := applyDevices st.reg devs } else st

/-- Running the pipeline over a sequence of events. -/
def runNet (st : NetState) (evs : List NetEvent) : NetState :=
  evs.foldl netStep st

/-- The registry with no entries. -/
def emptyReg : String → Option Device := fun _ => none

/-- Concrete device records for witnesses and counterexamples (the spec's
example arrival sequence with timestamps 100, 80, 150). -/
def dA100 : Device := { device := "A", lat := 10, long := 20, timestamp := 100 }

/-- Second arrival of the spec's example sequence (stale, timestamp 80). -/
def dA80 : Device := { device := "A", lat := 11, long := 21, timestamp := 80 }

/-- Third arrival of the spec's example sequence (timestamp 150). -/
def dA150 : Device := { device := "A", lat := 12, long := 22, timestamp := 150 }

/-- A stored record carrying marker, chart and paging-window state. -/
def dOld : Device :=
  { device := "A", lat := 1, long := 2, timestamp := 100, marker := some 7,
    chart := some 3, basetime := some 5, endtime := some 6 }

/-- Sensor readings with out-of-order timestamps (the later reading first). -/
def rLate : SensorReading :=
  { timestamp := 2000000, temperature := 1, humidity := 2, pm10 := 3, pm25 := 4 }

/-- The chronologically earlier reading, arriving second in the response. -/
def rEarly : SensorReading :=
  { timestamp := 1000000, temperature := 5, humidity := 6, pm10 := 7, pm25 := 8 }

/- ### Helper lemmas for the registry merge -/

/-- Helper: `find?` depends only on the predicate's values on the list. -/
theorem find?_congr_on {α : Type} (p q : α → Bool) :
    ∀ l : List α, (∀ x ∈ l, p x = q x) → l.find? p = l.find? q := by
  intro l
  induction l with
  | nil => intro _; rfl
  | cons a l ih =>
    intro h
    have ha : p a = q a := h a (by simp)
    cases hq : q a with
    | false =>
      rw [List.find?_cons_of_neg _ (by simp [ha, hq]),
        List.find?_cons_of_neg _ (by simp [hq])]
      exact ih fun x hx => h x (by simp [hx])
    | true =>
      rw [List.find?_cons_of_pos _ (by simp [ha, hq]),
        List.find?_cons_of_pos _ (by simp [hq])]

/-- Helper: folding the merge filter from a stored record `d` computes the
earliest record with the maximum timestamp of `d :: items`. -/
theorem foldl_merge_eq (items : List Device) : ∀ d : Device,
    items.foldl (fun s i => (mergeFilter s i).1) (some d)
      = firstWithMaxTs (d :: items) := by
  induction items with
  | nil =>
    intro d
    have hd : isMaxIn [d] d = true := by simp [isMaxIn]
    simp only [List.foldl_nil, firstWithMaxTs]
    rw [List.find?_cons_of_pos _ hd]
  | cons i rest ih =>
    intro d
    by_cases h : d.timestamp < i.timestamp
    · have h1 : (mergeFilter (some d) i).1 = some i := by
        simp [mergeFilter, h]
      rw [List.foldl_cons, h1, ih i]
      symm
      unfold firstWithMaxTs
      have hPd : isMaxIn (d :: i :: rest) d = false := by
        simp only [isMaxIn, decide_eq_false_iff_not]
        push_neg
        exact ⟨i, by simp, by omega⟩
      rw [List.find?_cons_of_neg _ (by simp [hPd])]
      apply find?_congr_on
      intro x hx
      simp only [isMaxIn]
      refine decide_eq_decide.mpr ?_
      constructor
      · intro hall y hy
        exact hall y (by simp [hy])
      · intro hall y hy
        rcases List.mem_cons.mp hy with rfl | hy2
        · have hi := hall i (by simp)
          omega
        · exact hall y hy2
    · have h1 : (mergeFilter (some d) i).1 = some d := by
        simp [mergeFilter, h]
      rw [List.foldl_cons, h1, ih d]
      symm
      unfold firstWithMaxTs
      have hcong : ∀ x ∈ d :: i :: rest,
          isMaxIn (d :: i :: rest) x = isMaxIn (d :: rest) x := by
        intro x _
        simp only [isMaxIn]
        refine decide_eq_decide.mpr ?_
        constructor
        · intro hall
          intro y hy
          rcases List.mem_cons.mp hy with rfl | hy2
          · exact hall y (by simp)
          · exact hall y (by simp [hy2])
        · intro hall y hy
          rcases List.mem_cons.mp hy with rfl | hy2
          · exact hall y (by simp)
          · rcases List.mem_cons.mp hy2 with rfl | hy3
            · have hd := hall d (by simp)
              omega
            · exact hall y (by simp [hy3])
      rw [find?_congr_on _ _ _ hcong]
      cases hQd : isMaxIn (d :: rest) d with
      | true =>
        rw [List.find?_cons_of_pos _ (by simp [hQd]),
          List.find?_cons_of_pos _ (by simp [hQd])]
      | false =>
        have hQi : isMaxIn (d :: rest) i = false := by
          cases hQi : isMaxIn (d :: rest) i with
          | false => rfl
          | true =>
            exfalso
            have hi : ∀ y ∈ d :: rest, y.timestamp ≤ i.timestamp := by
              simpa [isMaxIn] using hQi
            have hdle : d.timestamp ≤ i.timestamp := hi d (by simp)
            have : isMaxIn (d :: rest) d = true := by
              simp only [isMaxIn, decide_eq_true_eq]
              intro y hy
              have := hi y hy
              omega
            rw [this] at hQd
            exact Bool.noConfusion hQd
        rw [List.find?_cons_of_neg _ (by simp [hQd]),
          List.find?_cons_of_neg _ (by simp [hQi]),
          List.find?_cons_of_neg _ (by simp [hQd])]

/- ### Claim theorems -/

/-- C2: the cache-busting token attached to both the device-list and
sensor-data requests equals `floor(now / 300000) * 300000`, and two tokens
are identical exactly when the issue times fall in the same 5-minute
bucket. -/
theorem cache_token_buckets :
    (∀ now : Nat, cacheToken now = now / 300000 * 300000) ∧
    (∀ ne sw now, (deviceParams ne sw now).lookup "t"
      = some (toString (cacheToken now))) ∧
    (∀ dev b e now, (airParams dev b e now).lookup "t"
      = some (toString (cacheToken now))) ∧
    (∀ t1 t2 : Nat, cacheToken t1 = cacheToken t2 ↔
      t1 / 300000 = t2 / 300000) := by
  refine ⟨fun now => rfl, fun ne sw now => rfl, fun dev b e now => ?_,
    fun t1 t2 => ?_⟩
  · cases e with
    | none => rfl
    | some v =>
      by_cases hv : v ≠ 0
      · simp only [airParams, if_pos hv]
        rfl
      · simp only [airParams, if_neg hv]
        rfl
  · unfold cacheToken
    omega

/-- C3: each activation of the step-back control sets the new window end to
the prior start `b` and the new base to `b - 10800000`; hence `n + 1`
activations from base `b` reach base `b - (n + 1) * 10800000` with end
`b - n * 10800000`, moving the window strictly backward by exactly 3 hours
per activation. -/
theorem step_back_three_hours :
    (∀ b : Int, stepBack b = (b - 10800000, some b)) ∧
    (∀ b : Int, (stepBack b).1 < b) ∧
    (∀ (n : Nat) (b : Int) (e : Option Int),
      stepBackIter (n + 1) (b, e)
        = (b - (n + 1 : Nat) * 10800000, some (b - (n : Nat) * 10800000))) := by
  refine ⟨fun b => rfl, fun b => by simp [stepBack], fun n => ?_⟩
  induction n with
  | zero => intro b e; simp [stepBackIter, stepBack]
  | succ m ih =>
    intro b e
    show stepBackIter (m + 1) (stepBack b) = _
    rw [stepBack, ih]
    simp only [Prod.mk.injEq, Option.some.injEq]
    push_cast
    constructor <;> ring

/-- C1: for any arrival sequence of records for one identifier, the
registry merge keeps exactly the earliest-arriving record among those with
the maximum timestamp seen so far; a candidate whose timestamp is equal to
or less than the stored one leaves the stored record unchanged, fails the
filter (no re-render) and removes no marker. -/
theorem registry_latest_wins :
    (∀ items : List Device, runMerge items = firstWithMaxTs items) ∧
    (∀ stored item : Device, item.timestamp ≤ stored.timestamp →
      mergeFilter (some stored) item = (some stored, false, [])) := by
  constructor
  · intro items
    cases items with
    | nil => rfl
    | cons i rest => exact foldl_merge_eq rest i
  · intro stored item h
    simp [mergeFilter, not_lt.mpr h]

/-- Witness for C1 at the spec's example sequence (timestamps 100, 80, 150):
the registry ends at the timestamp-150 record, and the stale timestamp-80
candidate leaves the stored record unchanged with a `false` verdict. -/
theorem registry_latest_wins_witness :
    runMerge [dA100, dA80, dA150] = some dA150 ∧
    mergeFilter (some dA150) dA80 = (some dA150, false, []) := by
  constructor
  · rw [registry_latest_wins.1]
    decide
  · exact registry_latest_wins.2 dA150 dA80 (by decide)

/-- C9: when an incoming record with a strictly newer timestamp replaces a
stored record, the old record's marker is removed and the registry entry
becomes exactly the incoming record, so the previous record's chart,
basetime and endtime are not carried over. -/
theorem replacement_discards_state (stored item : Device)
    (h : stored.timestamp < item.timestamp) :
    mergeFilter (some stored) item = (some item, true, stored.marker.toList) ∧
    ∀ d : Device, (mergeFilter (some stored) item).1 = some d →
      d.chart = item.chart ∧ d.basetime = item.basetime ∧
        d.endtime = item.endtime := by
  have h1 : mergeFilter (some stored) item
      = (some item, true, stored.marker.toList) := by
    simp [mergeFilter, h]
  refine ⟨h1, ?_⟩
  intro d hd
  rw [h1] at hd
  simp only [Option.some.injEq] at hd
  subst hd
  exact ⟨rfl, rfl, rfl⟩

/-- Witness for C9: a stored record with marker 7, chart 3 and paging state
is replaced by the fresh timestamp-150 record; marker 7 is removed and the
entry has no chart or paging state. -/
theorem replacement_discards_state_witness :
    mergeFilter (some dOld) dA150 = (some dA150, true, [7]) ∧
    (mergeFilter (some dOld) dA150).1 = some dA150 ∧
    dA150.chart = none ∧ dA150.basetime = none ∧ dA150.endtime = none := by
  have h := replacement_discards_state dOld dA150 (by decide)
  exact ⟨h.1, by rw [h.1], rfl, rfl, rfl⟩

/-- C8: a response with exactly one reading with `pm25 = 35` and timestamp
`T` yields a PM 2.5 series with exactly one point `(T + 32400000, 35)`. -/
theorem pm25_single_point (T temp hum p10 : Int) :
    seriesData [⟨T, temp, hum, p10, 35⟩] 3 = [(T + 32400000, 35)] := by
  simp [seriesData, fanOut]

/-- C4 counterexample: at `now = 1000000000000` the chart-load fetch sends
no `end` parameter at all, and the implied 3-hour window end
`initBasetime now + 10800000` lies after `now` — not at `now` minus a fixed
skew. -/
theorem chart_load_end_counterexample :
    (chartLoadParams "A" 1000000000000).lookup "end" = none ∧
    initBasetime 1000000000000 = 999990000000 ∧
    (1000000000000 : Int)
      < initBasetime 1000000000000 + 3 * 60 * 60 * 1000 := by
  refine ⟨rfl, by decide, by decide⟩

/-- C4 (amended): on every popup open the chart `load` event sets the base
time to `floor((now - 9000000) / 3600000) * 3600000`, clears the end time,
and the fetch queries start = base and count = 500 with no `end` parameter;
the base lies in `(now - 12600000, now - 9000000]`, i.e. between 2.5 and
3.5 hours before now at an hour boundary. -/
theorem chart_load_window (dev : String) (now : Nat) (h : 9000000 ≤ now) :
    (chartLoadParams dev now).lookup "start"
      = some (toString (initBasetime now)) ∧
    (chartLoadParams dev now).lookup "end" = none ∧
    (chartLoadParams dev now).lookup "count" = some "500" ∧
    initBasetime now ≤ (now : Int) - 9000000 ∧
    (now : Int) - 12600000 < initBasetime now := by
  refine ⟨rfl, rfl, rfl, ?_, ?_⟩ <;>
    · simp only [initBasetime]
      omega

/-- Witness for C4 (amended) at `now = 1000000000000`. -/
theorem chart_load_window_witness :
    (chartLoadParams "A" 1000000000000).lookup "start"
      = some (toString (initBasetime 1000000000000)) ∧
    (chartLoadParams "A" 1000000000000).lookup "end" = none ∧
    (chartLoadParams "A" 1000000000000).lookup "count" = some "500" ∧
    initBasetime 1000000000000 ≤ (1000000000000 : Int) - 9000000 ∧
    (1000000000000 : Int) - 12600000 < initBasetime 1000000000000 :=
  chart_load_window "A" 1000000000000 (by norm_num)

/-- Helper: closed form for `n` popup opens starting from a fresh panel. -/
theorem openPopups_closed (n : Nat) :
    openPopups n ({} : ChartPanel)
      = { chart := if n = 0 then none else some (n - 1), created := n,
          nextId := n } := by
  induction n with
  | zero => rfl
  | succ m ih =>
    show onShowChart (openPopups m {}) = _
    rw [ih]
    simp [onShowChart]

/-- C5 counterexample: two popup opens of the same device create two chart
instances, and the second open replaces the first chart instead of reusing
it — so more than one chart instance is created per device. -/
theorem chart_reuse_counterexample :
    (openPopups 2 ({} : ChartPanel)).created = 2 ∧
    (openPopups 2 ({} : ChartPanel)).chart
      ≠ (openPopups 1 ({} : ChartPanel)).chart := by
  decide

/-- C5 (amended): the chart is created lazily — none exists before the first
popup open — but it is not reused: every popup open creates a fresh
instance and assigns it, so after `n` opens `n` instances have been created
and the device's chart is the latest one. -/
theorem chart_created_each_open :
    (openPopups 0 ({} : ChartPanel)).chart = none ∧
    (∀ n : Nat, (openPopups n ({} : ChartPanel)).created = n) ∧
    (∀ n : Nat, (openPopups (n + 1) ({} : ChartPanel)).chart = some n) := by
  refine ⟨rfl, fun n => ?_, fun n => ?_⟩ <;> simp [openPopups_closed]

/-- C6 counterexample: an HTTP transport error whose attached body is not
error-shaped (`status: 'ok'` with a result) is not treated as empty — its
record passes through and updates the registry. -/
theorem transport_error_counterexample :
    deviceListOutput
        (.httpError { status := some "ok", results := some [dA150] })
      = .ok [dA150] ∧
    applyDevices emptyReg [dA150] "A" = some dA150 := by
  exact ⟨rfl, by decide⟩

/-- C6 (amended): a device-list fetch whose post-`catchError` body has
status `'error'` — in particular any body the server shaped that way, and
any non-HTTP failure, whose body is synthesized as error-shaped — yields
zero devices and leaves the registry unchanged; an HTTP error whose
attached body is not error-shaped is instead processed like a success. -/
theorem device_error_yields_empty :
    (∀ o : FetchOutcome, (afterCatchError o).status = some "error" →
      deviceListOutput o = .ok []) ∧
    deviceListOutput .otherError = .ok [] ∧
    (∀ reg : String → Option Device, applyDevices reg [] = reg) := by
  refine ⟨?_, rfl, fun reg => rfl⟩
  intro o ho
  simp [deviceListOutput, ho]

/-- Witness for C6 (amended): an HTTP error carrying an error-shaped body
yields zero devices. -/
theorem device_error_yields_empty_witness :
    deviceListOutput (.httpError { status := some "error" }) = .ok [] :=
  device_error_yields_empty.1 _ rfl

/-- Helper: the grouped series for key `k < 4` lists, in response order, one
point per reading: the reading's timestamp shifted by 9 hours, paired with
its `k`-th metric value. -/
theorem seriesData_eq (results : List SensorReading) (k : Nat) (hk : k < 4) :
    seriesData results k
      = results.map
          (fun r => (r.timestamp + 9 * 60 * 60 * 1000, metricValue k r)) := by
  induction results with
  | nil => rfl
  | cons r rest ih =>
    have hstep : seriesData (r :: rest) k
        = ((fanOut r).filter (fun t => t.key == k)).map
            (fun t => (t.time, t.value)) ++ seriesData rest k := by
      simp [seriesData]
    rw [hstep, ih]
    interval_cases k <;> simp [fanOut, metricValue]

/-- C7 counterexample: a response listing the later reading first yields a
PM 2.5 series whose times are strictly decreasing — the pipeline does not
sort, so the claim's chronological ordering fails for out-of-order
responses. -/
theorem series_order_counterexample :
    (seriesData [rLate, rEarly] 3).map Prod.fst
      = [2000000 + 32400000, 1000000 + 32400000] ∧
    ¬ List.Sorted (· ≤ ·) ((seriesData [rLate, rEarly] 3).map Prod.fst) := by
  constructor <;> decide

/-- C7 (amended): each reading fans out into four (metric, value, time)
tuples (keys 0-3), which are grouped into one series per metric; within
each series the (time, value) pairs appear in response order — one pair per
reading, with the timestamp shifted by 9 hours — and are therefore
chronologically ordered whenever the response's readings are. -/
theorem series_response_order (results : List SensorReading) (k : Nat)
    (hk : k < 4) :
    (∀ r : SensorReading,
      (fanOut r).map MetricTuple.key = [0, 1, 2, 3]) ∧
    seriesData results k
      = results.map
          (fun r => (r.timestamp + 9 * 60 * 60 * 1000, metricValue k r)) ∧
    (List.Sorted (· ≤ ·) (results.map SensorReading.timestamp) →
      List.Sorted (· ≤ ·) ((seriesData results k).map Prod.fst)) := by
  refine ⟨fun r => rfl, seriesData_eq results k hk, ?_⟩
  intro hs
  rw [seriesData_eq results k hk, List.map_map]
  simp only [List.Sorted, List.pairwise_map] at hs ⊢
  exact hs.imp fun hab => by simpa using by omega

/-- Witness for C7 (amended) on a chronologically ordered two-reading
response: the PM 2.5 series is in order. -/
theorem series_response_order_witness :
    seriesData [rEarly, rLate] 3
      = [(1000000 + 9 * 60 * 60 * 1000, 8), (2000000 + 9 * 60 * 60 * 1000, 4)] ∧
    List.Sorted (· ≤ ·) ((seriesData [rEarly, rLate] 3).map Prod.fst) := by
  have h := series_response_order [rEarly, rLate] 3 (by norm_num)
  refine ⟨?_, h.2.2 (by decide)⟩
  rw [h.2.1]
  decide

/-- C10 counterexample: request 1 is superseded by a second bounding-box
emission; its late response carries the strictly newer timestamp-150
record, yet the registry keeps the timestamp-100 record delivered by the
current request — the superseded response never applies. -/
theorem stale_response_counterexample :
    (runNet { gen := 0, reg := emptyReg }
        [.emitBounds, .emitBounds, .respond 2 [dA100], .respond 1 [dA150]]).reg
      "A" = some dA100 ∧
    dA100.timestamp < dA150.timestamp := by
  constructor <;> decide

/-- C10 (amended): `switchMap` cancels a superseded in-flight device-list
request: a response whose request number is no longer the current one
leaves the state — in particular the registry — unchanged, regardless of
its records' timestamps; the current request's response is merged into the
registry, where staleness is decided by data content: a stored record is
replaced only by a strictly newer one. -/
theorem switchmap_drops_superseded :
    (∀ (st : NetState) (g : Nat) (devs : List Device), g ≠ st.gen →
      netStep st (.respond g devs) = st) ∧
    (∀ (st : NetState) (devs : List Device),
      (netStep st (.respond st.gen devs)).reg = applyDevices st.reg devs) ∧
    (∀ (reg : String → Option Device) (stored item : Device),
      reg item.device = some stored → ¬ stored.timestamp < item.timestamp →
      registryInsert reg item = reg) := by
  refine ⟨?_, ?_, ?_⟩
  · intro st g devs hg
    simp [netStep, hg]
  · intro st devs
    simp [netStep]
  · intro reg stored item hr hts
    funext k
    unfold registryInsert
    by_cases hk : k = item.device
    · subst hk
      rw [if_pos rfl, hr]
      simp [mergeFilter, hts]
    · rw [if_neg hk]

/-- Witness for C10 (amended): with the pipeline on request 2, the response
of superseded request 1 leaves the state unchanged. -/
theorem switchmap_drops_superseded_witness :
    netStep { gen := 2, reg := emptyReg } (.respond 1 [dA150])
      = { gen := 2, reg := emptyReg } :=
  switchmap_drops_superseded.1 _ 1 [dA150] (by decide)

end CrowdSensor
